import Mathlib

/-!
Shallow embedding of the healthcare risk-assessment pipeline
(`src/risk_scorer.py`, `src/data_loader.py`, `src/rag_recommender.py`,
`src/analyzer.py`, `src/config.py`).

Python floats are modelled by exact rationals (`ℚ`); Python dictionaries
whose keys may be absent are modelled by structures with `Option` fields
(`none` = key absent).  External capabilities (the OpenAI chat completion
and the retrieval stack) are modelled as function-valued parameters whose
result is `Except String α`: `Except.error e` models the call raising an
exception with message `e`, `Except.ok v` models a successful call whose
JSON payload parsed to `v`.  A final result of type `Except String α`
models a Python function that may raise (`error`) or return (`ok`).
-/

/-! ### String helpers: Python `in`, `str.lower()`, `str.split()` -/

/-- Python `text.lower()`, modelled characterwise. -/
def pyLower (s : String) : String :=
  String.mk (s.data.map Char.toLower)

/-- Python substring test `pat in s`, on character lists:
`charsContain s pat` is true iff `pat` occurs contiguously in `s`
(the empty pattern occurs in every string, as in Python). -/
def charsContain : List Char → List Char → Bool
  | [], pat => pat.isEmpty
  | c :: tl, pat => pat.isPrefixOf (c :: tl) || charsContain tl pat

/-- Python `pat in s` on strings. -/
def strContains (s pat : String) : Bool :=
  charsContain s.data pat.data

/-- Worker for `splitWords`: walks the characters, accumulating the
current word reversed, emitting a word at each whitespace run. -/
def splitAux : List Char → List Char → List String
  | [], acc => if acc.isEmpty then [] else [String.mk acc.reverse]
  | c :: tl, acc =>
    if c.isWhitespace then
      if acc.isEmpty then splitAux tl [] else String.mk acc.reverse :: splitAux tl []
    else splitAux tl (c :: acc)

/-- Python `text.split()`: split on whitespace runs, dropping empty pieces. -/
def splitWords (text : String) : List String :=
  splitAux text.data []

/-! ### Keyword rule scorer (`risk_scorer.py`, `rule_based_score`) -/

/-- One tiered keyword set from `config.py` (`high` / `medium` / `low`). -/
structure KeywordSet where
  high : List String
  medium : List String
  low : List String
deriving DecidableEq

/-- The `details` dictionary built by `rule_based_score`. -/
structure RuleDetails where
  high_risk_matches : List String
  medium_risk_matches : List String
  low_risk_matches : List String
  symptom_matches : List String
deriving DecidableEq

/-- `kw in text_lower`: one keyword-match test as performed by
`rule_based_score` (the text is lowercased, the keyword is used verbatim). -/
def kwMatch (text_lower kw : String) : Bool :=
  strContains text_lower kw

/-- Number of phrases of `phrases` matching in the (already lowercased)
text, as computed by the `sum(1 for kw in ... if kw in text_lower)`
generator expressions of `rule_based_score`. -/
def matchCount (phrases : List String) (text_lower : String) : ℕ :=
  (phrases.filter (fun kw => kwMatch text_lower kw)).length

/-- `RiskScorer.rule_based_score` (risk_scorer.py lines 18-75).
Returns the Python tuple `(score, category, details)`. -/
def rule_based_score (text : String) (keywords : KeywordSet)
    (symptoms : List String) : ℚ × String × RuleDetails :=
  let text_lower := pyLower text
  let high_count := matchCount keywords.high text_lower
  let medium_count := matchCount keywords.medium text_lower
  let low_count := matchCount keywords.low text_lower
  let symptom_count := matchCount symptoms text_lower
  let details : RuleDetails :=
    { high_risk_matches := keywords.high.filter (fun kw => kwMatch text_lower kw)
      medium_risk_matches := keywords.medium.filter (fun kw => kwMatch text_lower kw)
      low_risk_matches := keywords.low.filter (fun kw => kwMatch text_lower kw)
      symptom_matches := symptoms.filter (fun sym => kwMatch text_lower sym) }
  let score0 : ℚ :=
    if 0 < high_count then 0.7 + (high_count : ℚ) * 0.1
    else if 0 < medium_count then 0.4 + (medium_count : ℚ) * 0.05
    else if 0 < low_count then 0.1 + (low_count : ℚ) * 0.02
    else 0
  let score1 : ℚ :=
    if 0 < symptom_count then score0 + min ((symptom_count : ℚ) * 0.1) 0.3
    else score0
  let score := min score1 1
  let category :=
    if score ≥ 0.7 then "HIGH"
    else if score ≥ 0.4 then "MEDIUM"
    else "LOW"
  (score, category, details)

/-! ### Static keyword configuration (`config.py`) -/

/-- `HIV_RISK_KEYWORDS` from config.py. -/
def HIV_RISK_KEYWORDS : KeywordSet :=
  { high := ["unprotected", "multiple partners", "sti", "sexually transmitted",
             "injection drug", "needle sharing", "sex work", "recent exposure"]
    medium := ["partner", "condom", "test", "worried", "concerned", "symptoms"]
    low := ["healthy", "monogamous", "protected", "negative test"] }

/-- `MENTAL_HEALTH_KEYWORDS` from config.py. -/
def MENTAL_HEALTH_KEYWORDS : KeywordSet :=
  { high := ["suicide", "self-harm", "hopeless", "worthless", "can\x27t go on",
             "death wish", "ending it", "severe depression", "psychosis"]
    medium := ["depressed", "anxious", "stressed", "worried", "can\x27t sleep",
               "panic", "trauma", "abuse", "isolated", "crying"]
    low := ["concerned", "nervous", "tired", "overwhelmed"] }

/-- `HIV_SYMPTOM_PATTERNS` from config.py. -/
def HIV_SYMPTOM_PATTERNS : List String :=
  ["fever", "night sweats", "weight loss", "fatigue", "swollen glands",
   "rash", "sore throat", "muscle aches", "genital sores", "discharge"]

/-- `MH_SYMPTOM_PATTERNS` from config.py. -/
def MH_SYMPTOM_PATTERNS : List String :=
  ["sad", "hopeless", "anxious", "panic", "can\x27t focus", "irritable",
   "mood swings", "hearing voices", "paranoid", "flashbacks"]

/-! ### Risk model judge (`risk_scorer.py`, `llm_based_score`) -/

/-- The dictionary shape used by `llm_based_score`: a JSON object whose
keys may each be present (`some`) or absent (`none`).  A successful parse
may yield any combination; the degraded dictionaries built by the
code fill specific fields. -/
structure JudgeDict where
  score : Option ℚ
  category : Option String
  reasoning : Option String
  risk_factors : Option (List String)
  protective_factors : Option (List String)
  urgent_flags : Option Bool
deriving DecidableEq

/-- The prompt string built by `llm_based_score` (risk_scorer.py lines 97-116). -/
def judgePrompt (conversation_text risk_type : String) : String :=
  "You are a clinical risk assessment expert analyzing a conversation between an AI chatbot and a healthcare client.\n\n"
  ++ "Analyze the following conversation for " ++ risk_type ++ " RISK ASSESSMENT.\n\n"
  ++ "Conversation:\n" ++ conversation_text ++ "\n\n"
  ++ "Provide a structured risk assessment in JSON format with:\n"
  ++ "1. \"score\": A numerical score from 0.0 (no risk) to 1.0 (extreme risk)\n"
  ++ "2. \"category\": Classification as \"LOW\", \"MEDIUM\", or \"HIGH\"\n"
  ++ "3. \"reasoning\": Brief explanation of the assessment (2-3 sentences)\n"
  ++ "4. \"risk_factors\": List of specific concerns identified\n"
  ++ "5. \"protective_factors\": List of positive/protective elements identified\n"
  ++ "6. \"urgent_flags\": Boolean indicating if immediate intervention needed\n\n"
  ++ "Consider:\n"
  ++ "- For HIV: Sexual behavior, exposure risks, symptoms, partner status, prevention practices\n"
  ++ "- For Mental Health: Mood indicators, self-harm mentions, functioning, support systems, trauma\n\n"
  ++ "Respond ONLY with valid JSON, no other text."

/-- `RiskScorer.llm_based_score` (risk_scorer.py lines 77-142).
`configured` models `self.client` being non-`None` (an API key was set).
`complete` models the chat-completion call together with code-fence
stripping and `json.loads`: `Except.ok j` is a successfully parsed
response, `Except.error e` is any exception raised inside the `try`
block (network error, timeout, or a response that is not valid JSON
after stripping), carrying `str(e)`. -/
def llm_based_score (configured : Bool)
    (complete : String → Except String JudgeDict)
    (conversation_text risk_type : String) : JudgeDict :=
  if configured = false then
    { score := some 0
      category := some "UNKNOWN"
      reasoning := some "API key not configured"
      risk_factors := some []
      protective_factors := some []
      urgent_flags := none }
  else
    match complete (judgePrompt conversation_text risk_type) with
    | Except.ok result => result
    | Except.error e =>
      { score := some 0
        category := some "ERROR"
        reasoning := some ("Analysis error: " ++ e)
        risk_factors := some []
        protective_factors := some []
        urgent_flags := some false }

/-! ### Score fusion (`risk_scorer.py`, `hybrid_score`) -/

/-- Python `round(x, 3)`: round to three decimal places. -/
def round3 (x : ℚ) : ℚ :=
  ((round (x * 1000) : ℤ) : ℚ) / 1000

/-- The nested `categorize` helper of `hybrid_score`
(risk_scorer.py lines 173-178). -/
def categorize (score : ℚ) : String :=
  if score ≥ 0.7 then "HIGH"
  else if score ≥ 0.4 then "MEDIUM"
  else "LOW"

/-- One parsed conversation record as produced by
`load_conversations` (data_loader.py lines 31-52). -/
structure Message where
  timestamp : String
  role : String
  text : String
deriving DecidableEq

/-- Conversation dictionary consumed by `hybrid_score` and
`analyze_conversation`. -/
structure Conversation where
  messages : List Message
  full_text : String
  user_text : String
  message_count : ℕ
deriving DecidableEq

/-- The `rule_based` sub-dictionary of one domain of the
`hybrid_score` result. -/
structure RuleBasedReport where
  score : ℚ
  category : String
  details : RuleDetails
deriving DecidableEq

/-- One domain (`hiv_risk` or `mental_health_risk`) of the
`hybrid_score` result. -/
structure DomainAssessment where
  final_score : ℚ
  final_category : String
  rule_based : RuleBasedReport
  llm_based : JudgeDict
deriving DecidableEq

/-- The full `hybrid_score` result. -/
structure HybridResult where
  hiv_risk : DomainAssessment
  mental_health_risk : DomainAssessment
deriving DecidableEq

/-- `RiskScorer.hybrid_score` (risk_scorer.py lines 144-201). -/
def hybrid_score (configured : Bool)
    (complete : String → Except String JudgeDict)
    (conversation : Conversation) : HybridResult :=
  let text := conversation.full_text
  let hivRule := rule_based_score text HIV_RISK_KEYWORDS HIV_SYMPTOM_PATTERNS
  let mhRule := rule_based_score text MENTAL_HEALTH_KEYWORDS MH_SYMPTOM_PATTERNS
  let hiv_llm := llm_based_score configured complete text "HIV"
  let mh_llm := llm_based_score configured complete text "Mental Health"
  let hiv_final_score := hivRule.1 * 0.4 + (hiv_llm.score.getD 0) * 0.6
  let mh_final_score := mhRule.1 * 0.4 + (mh_llm.score.getD 0) * 0.6
  { hiv_risk :=
      { final_score := round3 hiv_final_score
        final_category := categorize hiv_final_score
        rule_based :=
          { score := round3 hivRule.1
            category := hivRule.2.1
            details := hivRule.2.2 }
        llm_based := hiv_llm }
    mental_health_risk :=
      { final_score := round3 mh_final_score
        final_category := categorize mh_final_score
        rule_based :=
          { score := round3 mhRule.1
            category := mhRule.2.1
            details := mhRule.2.2 }
        llm_based := mh_llm } }

/-! ### Document chunking (`data_loader.py`, `chunk_text`) -/

/-- Number of iterations of Python `range(0, n, step)` for `step > 0`:
the window count `ceil(n / step)`. -/
def numWindows (n step : ℕ) : ℕ :=
  (n + step - 1) / step

/-- The start indices produced by `range(0, n, step)` for `step > 0`. -/
def windowStarts (n step : ℕ) : List ℕ :=
  (List.range (numWindows n step)).map (fun k => k * step)

/-- `chunk_text` (data_loader.py lines 81-101).  The result is
`Except.error e` when the Python call raises with message `e` and
`Except.ok chunks` when it returns.  `range(0, len(words), step)`
raises `ValueError` when `step = chunk_size - overlap` is zero and
iterates zero times when `step` is negative. -/
def chunk_text (text : String) (chunk_size overlap : ℕ) :
    Except String (List String) :=
  let words := splitWords text
  if overlap < chunk_size then
    let step := chunk_size - overlap
    Except.ok (((windowStarts words.length step).map
      (fun i => String.intercalate " " ((words.drop i).take chunk_size))).filter
        (fun chunk => chunk ≠ ""))
  else if chunk_size = overlap then
    Except.error "ValueError: range() arg 3 must not be zero"
  else
    Except.ok []

/-! ### RAG recommender (`rag_recommender.py`, `generate_recommendation`) -/

/-- The dictionary shape of a parsed recommendation response: a JSON
object whose keys may each be present or absent.  The degraded
dictionaries built by the code fill all three fields. -/
structure RecDict where
  hiv_recommendation : Option String
  mh_recommendation : Option String
  integrated_plan : Option String
deriving DecidableEq

/-- The retrieval query for the HIV domain
(rag_recommender.py line 84). -/
def hivQuery (risk_assessment : HybridResult) : String :=
  "HIV risk " ++ risk_assessment.hiv_risk.final_category ++ " testing PrEP treatment"

/-- The retrieval query for the mental-health domain
(rag_recommender.py line 85). -/
def mhQuery (risk_assessment : HybridResult) : String :=
  "mental health " ++ risk_assessment.mental_health_risk.final_category ++ " counseling treatment"

/-- The prompt string built by `generate_recommendation`
(rag_recommender.py lines 91-122).  `\x7b` and `\x7d` denote the
literal braces of the JSON template. -/
def recPrompt (risk_assessment : HybridResult)
    (hiv_context mh_context : List String) (conversation_text : String) : String :=
  "You are a South African healthcare professional providing evidence-based recommendations according to NDOH guidelines.\n\n"
  ++ "RISK ASSESSMENT SUMMARY:\n"
  ++ "- HIV Risk: " ++ risk_assessment.hiv_risk.final_category
  ++ " (Score: " ++ toString risk_assessment.hiv_risk.final_score ++ ")\n"
  ++ "- Mental Health Risk: " ++ risk_assessment.mental_health_risk.final_category
  ++ " (Score: " ++ toString risk_assessment.mental_health_risk.final_score ++ ")\n\n"
  ++ "HIV RISK FACTORS:\n"
  ++ String.intercalate ", " (risk_assessment.hiv_risk.llm_based.risk_factors.getD ["None identified"])
  ++ "\n\nMENTAL HEALTH CONCERNS:\n"
  ++ String.intercalate ", " (risk_assessment.mental_health_risk.llm_based.risk_factors.getD ["None identified"])
  ++ "\n\nRELEVANT NDOH GUIDELINES - HIV:\n"
  ++ String.intercalate "\n" hiv_context
  ++ "\n\nRELEVANT NDOH GUIDELINES - MENTAL HEALTH:\n"
  ++ String.intercalate "\n" mh_context
  ++ "\n\nCONVERSATION CONTEXT:\n"
  ++ conversation_text.take 800 ++ "...\n\n"
  ++ "Provide:\n"
  ++ "1. HIV RECOMMENDATION: Specific evidence-based actions (testing, PrEP, counseling) per SA guidelines\n"
  ++ "2. MENTAL HEALTH RECOMMENDATION: Appropriate interventions and referrals per SA guidelines  \n"
  ++ "3. INTEGRATED TREATMENT PLAN: Holistic 3-step action plan addressing both concerns\n\n"
  ++ "Format as JSON:\n\x7b\n"
  ++ "  \"hiv_recommendation\": \"...\",\n"
  ++ "  \"mh_recommendation\": \"...\",\n"
  ++ "  \"integrated_plan\": \"...\"\n\x7d"

/-- `RAGRecommender.generate_recommendation` (rag_recommender.py lines
64-148).  `configured` models `self.client` being non-`None`.
`retrieve q k` models `retrieve_relevant_chunks(q, top_k=k)` (index
build, query embedding and FAISS search): `Except.error e` is an
exception raised there, `Except.ok chunks` the retrieved chunks.  The
two retrieval calls are *not* inside the `try` block, so their
exceptions propagate (outer `Except.error`).  `complete` models the
chat-completion call plus code-fence stripping and `json.loads`, as in
`llm_based_score`; its exceptions are caught and turned into the
degraded dictionary. -/
def generate_recommendation (configured : Bool)
    (retrieve : String → ℕ → Except String (List String))
    (complete : String → Except String RecDict)
    (risk_assessment : HybridResult) (conversation_text : String) :
    Except String RecDict :=
  if configured = false then
    Except.ok
      { hiv_recommendation := some "API not configured"
        mh_recommendation := some "API not configured"
        integrated_plan := some "API not configured" }
  else
    match retrieve (hivQuery risk_assessment) 3 with
    | Except.error e => Except.error e
    | Except.ok hiv_context =>
      match retrieve (mhQuery risk_assessment) 3 with
      | Except.error e => Except.error e
      | Except.ok mh_context =>
        match complete (recPrompt risk_assessment hiv_context mh_context conversation_text) with
        | Except.ok recommendations => Except.ok recommendations
        | Except.error e =>
          Except.ok
            { hiv_recommendation := some ("Error generating recommendation: " ++ e)
              mh_recommendation := some ("Error generating recommendation: " ++ e)
              integrated_plan := some ("Error generating plan: " ++ e) }

/-! ### Analyzer orchestration (`analyzer.py`, `analyze_conversation`) -/

/-- The record returned by `ConversationAnalyzer.analyze_conversation`
(analyzer.py lines 36-43); the `conversation` sub-dictionary is
flattened into the first two fields. -/
structure AnalysisResult where
  message_count : ℕ
  text_preview : String
  risk_assessment : HybridResult
  recommendations : Except String RecDict

/-- `ConversationAnalyzer.analyze_conversation` (analyzer.py lines 17-43). -/
def analyze_conversation (configured : Bool)
    (complete : String → Except String JudgeDict)
    (retrieve : String → ℕ → Except String (List String))
    (recComplete : String → Except String RecDict)
    (conversation : Conversation) : AnalysisResult :=
  let risk_scores := hybrid_score configured complete conversation
  let recommendations :=
    generate_recommendation configured retrieve recComplete risk_scores
      conversation.full_text
  { message_count := conversation.message_count
    text_preview := conversation.full_text.take 200 ++ "..."
    risk_assessment := risk_scores
    recommendations := recommendations }

/-! ### Spec-side definition for claim C9 -/

/-- Spec wording for C9: a phrase "occurs in the text when compared
ignoring letter case".  This is the *specification's* notion of
matching, kept separate from the code's `kwMatch` for comparison. -/
def caseInsensitiveOccurs (phrase text : String) : Bool :=
  strContains (pyLower text) (pyLower phrase)

/-! ### Helper lemmas for the chunking development -/

/-- Every word emitted by `splitAux` is non-empty. -/
lemma splitAux_ne_empty : ∀ (cs acc : List Char) (w : String),
    w ∈ splitAux cs acc → w ≠ "" := by
  intro cs
  induction cs with
  | nil =>
    intro acc w hw
    simp only [splitAux] at hw
    split at hw
    · simp at hw
    · next hne =>
      simp only [List.mem_singleton] at hw
      subst hw
      intro hc
      apply hne
      have : acc.reverse = [] := by
        have := congrArg String.data hc
        simpa using this
      simpa [List.isEmpty_iff] using (List.reverse_eq_nil_iff.mp this)
  | cons c tl ih =>
    intro acc w hw
    simp only [splitAux] at hw
    split at hw
    · split at hw
      · exact ih [] w hw
      · next hne =>
        rcases List.mem_cons.mp hw with rfl | hw
        · intro hc
          apply hne
          have : acc.reverse = [] := by
            have := congrArg String.data hc
            simpa using this
          simpa [List.isEmpty_iff] using (List.reverse_eq_nil_iff.mp this)
        · exact ih [] w hw
    · exact ih (c :: acc) w hw

/-- Every word produced by `splitWords` is non-empty. -/
lemma splitWords_ne_empty (text : String) (w : String)
    (hw : w ∈ splitWords text) : w ≠ "" :=
  splitAux_ne_empty text.data [] w hw

/-- The accumulator length never shrinks along `String.intercalate.go`. -/
lemma intercalate_go_length (s : String) :
    ∀ (l : List String) (acc : String),
      acc.length ≤ (String.intercalate.go acc s l).length := by
  intro l
  induction l with
  | nil => intro acc; simp [String.intercalate.go]
  | cons a as ih =>
    intro acc
    calc acc.length ≤ (acc ++ s ++ a).length := by
          simp only [String.length_append]
          omega
      _ ≤ (String.intercalate.go (acc ++ s ++ a) s as).length := ih (acc ++ s ++ a)

/-- Joining a non-empty list of non-empty words gives a non-empty string. -/
lemma intercalate_ne_empty (ws : List String) (hne : ws ≠ [])
    (hw : ∀ w ∈ ws, w ≠ "") : String.intercalate " " ws ≠ "" := by
  match ws, hne with
  | w :: rest, _ =>
    intro hc
    have h1 : w.length ≤ (String.intercalate " " (w :: rest)).length := by
      show w.length ≤ (String.intercalate.go w " " rest).length
      exact intercalate_go_length " " rest w
    rw [hc] at h1
    have h2 : w ≠ "" := hw w (List.mem_cons_self w rest)
    have h3 : 0 < w.length := by
      cases w with
      | mk data =>
        cases data with
        | nil => exact absurd rfl h2
        | cons c cs =>
          show 0 < (c :: cs).length
          simp
    have h0 : ("" : String).length = 0 := rfl
    omega

/-- An empty word list yields zero windows. -/
lemma numWindows_zero (s : ℕ) (hs : 0 < s) : numWindows 0 s = 0 := by
  unfold numWindows
  exact Nat.div_eq_of_lt (by omega)

/-- Closed form of the window count for a non-empty word list. -/
lemma numWindows_eq (n s : ℕ) (hs : 0 < s) (hn : 0 < n) :
    numWindows n s = (n - 1) / s + 1 := by
  unfold numWindows
  rw [show n + s - 1 = (n - 1) + s by omega, Nat.add_div_right _ hs]

/-- Peeling one window off the front of a non-empty word list. -/
lemma numWindows_succ (n s : ℕ) (hs : 0 < s) (hn : 0 < n) :
    numWindows n s = numWindows (n - s) s + 1 := by
  rcases le_or_lt n s with hle | hlt
  · rw [numWindows_eq n s hs hn, Nat.sub_eq_zero_of_le hle, numWindows_zero s hs,
      Nat.div_eq_of_lt (by omega)]
  · rw [numWindows_eq n s hs hn, numWindows_eq (n - s) s hs (by omega),
      show n - s - 1 = (n - 1) - s by omega]
    congr 1
    rw [show n - 1 = ((n - 1) - s) + s by omega, Nat.add_div_right _ hs,
      Nat.add_sub_cancel]

/-- Each of the `numWindows n s` starting offsets lies inside the list. -/
lemma mul_lt_of_lt_numWindows {k n s : ℕ} (hs : 0 < s)
    (hk : k < numWindows n s) : k * s < n := by
  have hn : 0 < n := by
    by_contra hc
    rw [show n = 0 by omega, numWindows_zero s hs] at hk
    omega
  rw [numWindows_eq n s hs hn] at hk
  have h1 : k ≤ (n - 1) / s := by omega
  have h2 : k * s ≤ (n - 1) / s * s := Nat.mul_le_mul_right s h1
  have h3 : (n - 1) / s * s ≤ n - 1 := Nat.div_mul_le_self (n - 1) s
  omega

/-- Concatenating the step-sized prefixes of the successive windows
reconstructs the original word list. -/
lemma flatten_window_prefixes (s : ℕ) (hs : 0 < s) :
    ∀ (N : ℕ) (l : List String), l.length ≤ N →
      ((List.range (numWindows l.length s)).map
        (fun k => (l.drop (k * s)).take s)).flatten = l := by
  intro N
  induction N with
  | zero =>
    intro l hl
    have hnil : l = [] := by
      cases l with
      | nil => rfl
      | cons a tl => simp at hl
    subst hnil
    simp [numWindows_zero s hs]
  | succ N ih =>
    intro l hl
    rcases eq_or_ne l [] with rfl | hne
    · simp [numWindows_zero s hs]
    · have hlen : 0 < l.length := List.length_pos.mpr hne
      rw [numWindows_succ l.length s hs hlen, List.range_succ_eq_map]
      simp only [List.map_cons, List.flatten_cons, List.map_map]
      have hfun : ((fun k => (l.drop (k * s)).take s) ∘ Nat.succ)
          = (fun k => ((l.drop s).drop (k * s)).take s) := by
        funext k
        simp only [Function.comp_apply, List.drop_drop, Nat.succ_eq_add_one]
        congr 2
        ring
      have hM : l.length - s = (l.drop s).length := by
        rw [List.length_drop]
      rw [hfun, hM, ih (l.drop s) (by rw [List.length_drop]; omega)]
      simp

/-- The word at index `j` lies in the window whose start is the largest
multiple of the step not exceeding `j`, and that window exists. -/
lemma window_covers (s W : ℕ) (hs : 0 < s) (hsW : s ≤ W) (l : List String)
    (j : ℕ) (hj : j < l.length) :
    j / s < numWindows l.length s
    ∧ l.get ⟨j, hj⟩ ∈ (l.drop ((j / s) * s)).take W := by
  have hn : 0 < l.length := by omega
  have hdm : s * (j / s) + j % s = j := Nat.div_add_mod j s
  have hmod : j % s < s := Nat.mod_lt j hs
  have ha : (j / s) * s ≤ j := Nat.div_mul_le_self j s
  have hb : j < (j / s) * s + s := by
    rw [Nat.mul_comm]
    omega
  constructor
  · rw [numWindows_eq l.length s hs hn]
    have h1 : j / s ≤ (l.length - 1) / s :=
      Nat.div_le_div_right (by omega)
    omega
  · set a := (j / s) * s with hadef
    have hlt1 : j - a < W := by omega
    have hlt2 : j - a < ((l.drop a).take W).length := by
      rw [List.length_take, List.length_drop]
      omega
    have hget : ((l.drop a).take W).get ⟨j - a, hlt2⟩ = l.get ⟨j, hj⟩ := by
      simp only [List.get_eq_getElem, List.getElem_take, List.getElem_drop]
      congr 1
      omega
    rw [← hget]
    exact List.get_mem _ _ hlt2

/-! ### Claim theorems -/

/-- C1: for every conversation and each of the two risk domains, the
`final_score` reported by `hybrid_score` equals
`round(0.4 * rule_score + 0.6 * model_score, 3)`, where the model score
is the `score` field of the judge result, defaulting to 0 when absent. -/
theorem hybrid_final_score_spec (configured : Bool)
    (complete : String → Except String JudgeDict) (conversation : Conversation) :
    (hybrid_score configured complete conversation).hiv_risk.final_score
      = round3 (0.4 * (rule_based_score conversation.full_text HIV_RISK_KEYWORDS HIV_SYMPTOM_PATTERNS).1
          + 0.6 * ((llm_based_score configured complete conversation.full_text "HIV").score.getD 0))
    ∧ (hybrid_score configured complete conversation).mental_health_risk.final_score
      = round3 (0.4 * (rule_based_score conversation.full_text MENTAL_HEALTH_KEYWORDS MH_SYMPTOM_PATTERNS).1
          + 0.6 * ((llm_based_score configured complete conversation.full_text "Mental Health").score.getD 0)) := by
  constructor <;>
  · simp only [hybrid_score]
    congr 1
    ring

/-- C2 (amended): the reported `final_category` is the threshold function
of the *unrounded* fused score `0.4 * rule + 0.6 * model` (not of the
reported rounded `final_score`); the threshold function itself satisfies
HIGH iff `s ≥ 0.7`, MEDIUM iff `0.4 ≤ s < 0.7`, LOW iff `s < 0.4`,
including at the boundary scores 0.399, 0.4, 0.699 and 0.7. -/
theorem final_category_from_unrounded_score (configured : Bool)
    (complete : String → Except String JudgeDict) (conversation : Conversation) :
    ((hybrid_score configured complete conversation).hiv_risk.final_category
      = categorize ((rule_based_score conversation.full_text HIV_RISK_KEYWORDS HIV_SYMPTOM_PATTERNS).1 * 0.4
          + ((llm_based_score configured complete conversation.full_text "HIV").score.getD 0) * 0.6))
    ∧ ((hybrid_score configured complete conversation).mental_health_risk.final_category
      = categorize ((rule_based_score conversation.full_text MENTAL_HEALTH_KEYWORDS MH_SYMPTOM_PATTERNS).1 * 0.4
          + ((llm_based_score configured complete conversation.full_text "Mental Health").score.getD 0) * 0.6))
    ∧ (∀ s : ℚ, (categorize s = "HIGH" ↔ 0.7 ≤ s)
        ∧ (categorize s = "MEDIUM" ↔ 0.4 ≤ s ∧ s < 0.7)
        ∧ (categorize s = "LOW" ↔ s < 0.4))
    ∧ categorize 0.399 = "LOW" ∧ categorize 0.4 = "MEDIUM"
    ∧ categorize 0.699 = "MEDIUM" ∧ categorize 0.7 = "HIGH" := by
  refine ⟨by simp only [hybrid_score], by simp only [hybrid_score], ?_, ?_, ?_, ?_, ?_⟩
  · intro s
    unfold categorize
    split_ifs with h1 h2
    · refine ⟨by simpa using h1, by simp; intro hc; linarith, by simp; linarith⟩
    · refine ⟨by simp; exact lt_of_not_ge h1,
        by simp; exact ⟨h2, lt_of_not_ge h1⟩, by simp; exact h2⟩
    · refine ⟨by simp; exact lt_of_not_ge h1,
        by simp; intro hc; exact absurd hc h2, by simpa using lt_of_not_ge h2⟩
  · norm_num [categorize]
  · norm_num [categorize]
  · norm_num [categorize]
  · norm_num [categorize]

/-- C2 (counterexample): with conversation text "condom" (rule score
0.45) and a judge score of 0.866, the fused score is 0.6996, so the
reported `final_score` rounds to 0.7 while the reported
`final_category` is MEDIUM — the category is not the claimed function
of the reported score at the 0.7 boundary. -/
theorem final_category_not_determined_by_final_score :
    ((hybrid_score true (fun _ => Except.ok ⟨some 0.866, none, none, none, none, none⟩)
        ⟨[], "condom", "", 0⟩).hiv_risk.final_score = 0.7)
    ∧ ((hybrid_score true (fun _ => Except.ok ⟨some 0.866, none, none, none, none, none⟩)
        ⟨[], "condom", "", 0⟩).hiv_risk.final_category = "MEDIUM") := by
  have hr : (rule_based_score "condom" HIV_RISK_KEYWORDS HIV_SYMPTOM_PATTERNS).1 = 0.45 := by
    simp only [rule_based_score]
    norm_num [show matchCount HIV_RISK_KEYWORDS.high (pyLower "condom") = 0 from by decide,
      show matchCount HIV_RISK_KEYWORDS.medium (pyLower "condom") = 1 from by decide,
      show matchCount HIV_SYMPTOM_PATTERNS (pyLower "condom") = 0 from by decide]
  constructor
  · simp only [hybrid_score, llm_based_score]
    norm_num [hr, round3, round_eq, categorize]
  · simp only [hybrid_score, llm_based_score]
    norm_num [hr, round3, round_eq, categorize]

/-- C3: with pairwise-distinct phrases per tier and distinct symptoms,
`rule_based_score` returns exactly the tiered base score (high tier
`0.7 + 0.1 k`, else medium `0.4 + 0.05 k`, else low `0.1 + 0.02 k`,
else 0) plus the symptom bonus `min(0.1 k, 0.3)`, clamped to at most 1;
and with no matches at all the score is 0 and the category LOW. -/
theorem rule_based_score_formula (text : String) (keywords : KeywordSet)
    (symptoms : List String) (hh : keywords.high.Nodup) (hm : keywords.medium.Nodup)
    (hl : keywords.low.Nodup) (hs : symptoms.Nodup) :
    ((rule_based_score text keywords symptoms).1 =
      min ((if 0 < matchCount keywords.high (pyLower text) then
              0.7 + 0.1 * (matchCount keywords.high (pyLower text) : ℚ)
            else if 0 < matchCount keywords.medium (pyLower text) then
              0.4 + 0.05 * (matchCount keywords.medium (pyLower text) : ℚ)
            else if 0 < matchCount keywords.low (pyLower text) then
              0.1 + 0.02 * (matchCount keywords.low (pyLower text) : ℚ)
            else 0)
           + min (0.1 * (matchCount symptoms (pyLower text) : ℚ)) 0.3) 1)
    ∧ ((matchCount keywords.high (pyLower text) = 0
        ∧ matchCount keywords.medium (pyLower text) = 0
        ∧ matchCount keywords.low (pyLower text) = 0
        ∧ matchCount symptoms (pyLower text) = 0) →
        (rule_based_score text keywords symptoms).1 = 0
        ∧ (rule_based_score text keywords symptoms).2.1 = "LOW") := by
  constructor
  · simp only [rule_based_score]
    rcases Nat.eq_zero_or_pos (matchCount symptoms (pyLower text)) with h0 | h0
    · rw [h0]
      norm_num
      split_ifs <;> simp [mul_comm]
    · rw [if_pos h0]
      split_ifs <;> simp [mul_comm]
  · rintro ⟨h1, h2, h3, h4⟩
    simp only [rule_based_score, h1, h2, h3, h4]
    norm_num

/-- C3 (witness): on the text "worried about fever" with the HIV keyword
configuration, the formula of `rule_based_score_formula` evaluates to
0.55 (one medium match plus one symptom match). -/
theorem rule_based_score_formula_witness :
    (rule_based_score "worried about fever" HIV_RISK_KEYWORDS HIV_SYMPTOM_PATTERNS).1 = 0.55 := by
  have h := (rule_based_score_formula "worried about fever" HIV_RISK_KEYWORDS HIV_SYMPTOM_PATTERNS
    (by decide) (by decide) (by decide) (by decide)).1
  rw [h]
  norm_num [show matchCount HIV_RISK_KEYWORDS.high (pyLower "worried about fever") = 0 from by decide,
    show matchCount HIV_RISK_KEYWORDS.medium (pyLower "worried about fever") = 1 from by decide,
    show matchCount HIV_SYMPTOM_PATTERNS (pyLower "worried about fever") = 1 from by decide]

/-- C4: evaluation of `llm_based_score` on its degraded paths.  The
unconfigured branch returns the UNKNOWN dictionary *without* the
`urgent_flags` key (`none`), while the caught-exception branch returns
the ERROR dictionary with `urgent_flags` present and false — the two
degraded shapes differ, refuting the uniform-structure claim. -/
theorem llm_degraded_results_shape (complete : String → Except String JudgeDict)
    (text risk_type : String) :
    ((llm_based_score false complete text risk_type)
      = ⟨some 0, some "UNKNOWN", some "API key not configured", some [], some [], none⟩)
    ∧ ((llm_based_score false complete text risk_type).urgent_flags = none)
    ∧ (∀ e, (llm_based_score true (fun _ => Except.error e) text risk_type)
      = ⟨some 0, some "ERROR", some ("Analysis error: " ++ e), some [], some [], some false⟩) :=
  ⟨rfl, rfl, fun _ => rfl⟩

/-- C5 (counterexample): when the retrieval step raises (here a
connection error), `generate_recommendation` propagates the exception
to its caller instead of returning a degraded `Recommendation` — the
retrieval calls are outside the `try` block. -/
theorem generate_recommendation_propagates_retrieval_error :
    generate_recommendation true (fun _ _ => Except.error "ConnectionError")
      (fun _ => Except.ok ⟨none, none, none⟩)
      (hybrid_score false (fun _ => Except.error "unused") ⟨[], "", "", 0⟩) "hello"
      = Except.error "ConnectionError" := rfl

/-- C5 (amended): `generate_recommendation` short-circuits with the
uniform "API not configured" result when unconfigured (for *every*
retriever and completion, so neither is consulted); a failure of the
completion call or of JSON parsing is caught and yields a
recommendation whose three fields state the failure reason; but an
exception raised during retrieval propagates to the caller. -/
theorem generate_recommendation_degradation (retrieve : String → ℕ → Except String (List String))
    (complete : String → Except String RecDict)
    (risk_assessment : HybridResult) (conversation_text : String) :
    (generate_recommendation false retrieve complete risk_assessment conversation_text
      = Except.ok ⟨some "API not configured", some "API not configured", some "API not configured"⟩)
    ∧ (∀ hiv_context mh_context e,
        retrieve (hivQuery risk_assessment) 3 = Except.ok hiv_context →
        retrieve (mhQuery risk_assessment) 3 = Except.ok mh_context →
        complete (recPrompt risk_assessment hiv_context mh_context conversation_text)
          = Except.error e →
        generate_recommendation true retrieve complete risk_assessment conversation_text
          = Except.ok ⟨some ("Error generating recommendation: " ++ e),
                       some ("Error generating recommendation: " ++ e),
                       some ("Error generating plan: " ++ e)⟩)
    ∧ (∀ e, retrieve (hivQuery risk_assessment) 3 = Except.error e →
        generate_recommendation true retrieve complete risk_assessment conversation_text
          = Except.error e) := by
  refine ⟨rfl, ?_, ?_⟩
  · intro hiv_context mh_context e h1 h2 h3
    simp only [generate_recommendation, h1, h2, h3]
    rfl
  · intro e h1
    simp only [generate_recommendation, h1]
    rfl

/-- C5 (witness): concrete instance of the completion-failure case of
`generate_recommendation_degradation`. -/
theorem generate_recommendation_degradation_witness :
    generate_recommendation true (fun _ _ => Except.ok ["guideline chunk"])
      (fun _ => Except.error "timeout")
      (hybrid_score false (fun _ => Except.error "unused") ⟨[], "", "", 0⟩) "text"
      = Except.ok ⟨some "Error generating recommendation: timeout",
                   some "Error generating recommendation: timeout",
                   some "Error generating plan: timeout"⟩ :=
  (generate_recommendation_degradation (fun _ _ => Except.ok ["guideline chunk"])
    (fun _ => Except.error "timeout")
    (hybrid_score false (fun _ => Except.error "unused") ⟨[], "", "", 0⟩) "text").2.1
    ["guideline chunk"] ["guideline chunk"] "timeout" rfl rfl rfl

/-- C6: for `0 ≤ overlap < chunk_size`, `chunk_text` returns exactly the
word windows starting at successive multiples of
`chunk_size - overlap`, each window a contiguous in-order slice of at
most `chunk_size` words joined by single spaces (the last partial
window included); every word of the source is covered by some window;
and concatenating the step-sized prefixes of the windows reconstructs
the original word sequence. -/
theorem chunk_text_spec (text : String) (W O : ℕ) (h : O < W) :
    (chunk_text text W O = Except.ok
      ((List.range (numWindows (splitWords text).length (W - O))).map
        (fun k => String.intercalate " " (((splitWords text).drop (k * (W - O))).take W))))
    ∧ (∀ k, (((splitWords text).drop (k * (W - O))).take W).length ≤ W)
    ∧ (∀ j (hj : j < (splitWords text).length),
        ∃ k, k < numWindows (splitWords text).length (W - O)
          ∧ (splitWords text).get ⟨j, hj⟩ ∈ ((splitWords text).drop (k * (W - O))).take W)
    ∧ ((List.range (numWindows (splitWords text).length (W - O))).map
        (fun k => ((splitWords text).drop (k * (W - O))).take (W - O))).flatten
      = splitWords text := by
  have hs : 0 < W - O := by omega
  refine ⟨?_, ?_, ?_, ?_⟩
  · simp only [chunk_text, if_pos h, windowStarts, List.map_map]
    congr 1
    apply List.filter_eq_self.mpr
    intro c hc
    rcases List.mem_map.mp hc with ⟨k, hk, rfl⟩
    rcases List.mem_range.mp hk with hkN
    simp only [Function.comp_apply]
    have hlt : k * (W - O) < (splitWords text).length :=
      mul_lt_of_lt_numWindows hs hkN
    have hwne : ((splitWords text).drop (k * (W - O))).take W ≠ [] := by
      apply List.ne_nil_of_length_pos
      rw [List.length_take, List.length_drop]
      omega
    have hall : ∀ w ∈ ((splitWords text).drop (k * (W - O))).take W, w ≠ "" := by
      intro w hw
      exact splitWords_ne_empty text w
        (List.drop_subset _ _ (List.take_subset _ _ hw))
    simpa using intercalate_ne_empty _ hwne hall
  · intro k
    rw [List.length_take]
    exact min_le_left W _
  · intro j hj
    have hw := window_covers (W - O) W hs (by omega) (splitWords text) j hj
    exact ⟨j / (W - O), hw.1, hw.2⟩
  · exact flatten_window_prefixes (W - O) hs (splitWords text).length (splitWords text) le_rfl

/-- C6 (witness): `chunk_text` on "a b c" with window 2 and overlap 1,
via `chunk_text_spec`. -/
theorem chunk_text_spec_witness :
    chunk_text "a b c" 2 1 = Except.ok
      ((List.range (numWindows (splitWords "a b c").length (2 - 1))).map
        (fun k => String.intercalate " " (((splitWords "a b c").drop (k * (2 - 1))).take 2))) :=
  (chunk_text_spec "a b c" 2 1 (by decide)).1

/-- C7 (counterexample): on the non-empty text "a b c" with
`chunk_size = 2` and `overlap = 3` (overlap greater than the window),
`chunk_text` does not raise: it silently returns an empty chunk list,
because `range(0, 3, -1)` iterates zero times. -/
theorem chunk_text_silently_degrades :
    chunk_text "a b c" 2 3 = Except.ok [] := rfl

/-- C7 (amended): `chunk_text` raises only in the `overlap = chunk_size`
case (where `range` receives step 0 and raises `ValueError`); for
`overlap > chunk_size` it silently degrades, returning an empty chunk
list for every input text instead of failing fast. -/
theorem chunk_text_overlap_validation (text : String) (chunk_size overlap : ℕ) :
    (chunk_text text chunk_size chunk_size
        = Except.error "ValueError: range() arg 3 must not be zero")
    ∧ (chunk_size < overlap → chunk_text text chunk_size overlap = Except.ok []) := by
  constructor
  · simp [chunk_text]
  · intro hlt
    simp [chunk_text, Nat.not_lt.mpr (le_of_lt hlt), Nat.ne_of_lt hlt]

/-- C7 (amended, witness): concrete instances of both cases of
`chunk_text_overlap_validation`. -/
theorem chunk_text_overlap_validation_witness :
    (chunk_text "a b c" 2 2 = Except.error "ValueError: range() arg 3 must not be zero")
    ∧ chunk_text "a b c" 2 5 = Except.ok [] :=
  ⟨(chunk_text_overlap_validation "a b c" 2 5).1,
   (chunk_text_overlap_validation "a b c" 2 5).2 (by decide)⟩

/-- C8: holding the text and tier keywords fixed, the rule-based score
is monotone in the number of symptom matches: if symptom list A
matches at most as many phrases as symptom list B, the score with A is
at most the score with B. -/
theorem rule_score_monotone_in_symptoms (text : String) (keywords : KeywordSet)
    (symptomsA symptomsB : List String)
    (h : matchCount symptomsA (pyLower text) ≤ matchCount symptomsB (pyLower text)) :
    (rule_based_score text keywords symptomsA).1
      ≤ (rule_based_score text keywords symptomsB).1 := by
  simp only [rule_based_score]
  apply min_le_min _ le_rfl
  rcases Nat.eq_zero_or_pos (matchCount symptomsA (pyLower text)) with h0 | h0
  · rw [h0]
    simp only [lt_irrefl, if_false]
    split_ifs <;>
      first
      | exact le_rfl
      | exact le_add_of_nonneg_right (le_min (by positivity) (by norm_num))
  · rw [if_pos h0, if_pos (lt_of_lt_of_le h0 h)]
    apply add_le_add_left
    exact min_le_min (by
      apply mul_le_mul_of_nonneg_right _ (by norm_num)
      exact_mod_cast h) le_rfl

/-- C8 (witness): one symptom match versus two on the text "sad fever". -/
theorem rule_score_monotone_in_symptoms_witness :
    (rule_based_score "sad fever" MENTAL_HEALTH_KEYWORDS ["sad"]).1
      ≤ (rule_based_score "sad fever" MENTAL_HEALTH_KEYWORDS ["sad", "fever"]).1 :=
  rule_score_monotone_in_symptoms "sad fever" MENTAL_HEALTH_KEYWORDS ["sad"] ["sad", "fever"]
    (by decide)

/-- C9 (amended): matching lowercases only the text, never the phrase: a
phrase matches iff it occurs verbatim as a substring of the lowercased
text, so the outcome is invariant under case changes of the text but
not under case changes of the phrase. -/
theorem rule_matching_lowercases_text_only (t1 t2 : String) (keywords : KeywordSet)
    (symptoms : List String) (h : pyLower t1 = pyLower t2) :
    rule_based_score t1 keywords symptoms = rule_based_score t2 keywords symptoms
    ∧ (∀ kw, kwMatch (pyLower t1) kw = strContains (pyLower t1) kw) := by
  exact ⟨by simp only [rule_based_score, h], fun kw => rfl⟩

/-- C9 (amended, witness): two case variants of the same text score
identically. -/
theorem rule_matching_lowercases_text_only_witness :
    rule_based_score "FeVer CHECK" HIV_RISK_KEYWORDS HIV_SYMPTOM_PATTERNS
      = rule_based_score "fever check" HIV_RISK_KEYWORDS HIV_SYMPTOM_PATTERNS :=
  (rule_matching_lowercases_text_only "FeVer CHECK" "fever check" HIV_RISK_KEYWORDS
    HIV_SYMPTOM_PATTERNS (by decide)).1

/-- C9 (counterexample): the phrase "STI" occurs in the text
"Recent STI diagnosis" when compared ignoring case, yet
`rule_based_score` does not match it (score 0, no recorded match),
while the lowercase phrase "sti" on the same text scores 0.8 — so the
match outcome is not invariant under changing the case of the phrase. -/
theorem keyword_match_not_phrase_case_insensitive :
    caseInsensitiveOccurs "STI" "Recent STI diagnosis" = true
    ∧ (rule_based_score "Recent STI diagnosis" ⟨["STI"], [], []⟩ []).2.2.high_risk_matches = []
    ∧ (rule_based_score "Recent STI diagnosis" ⟨["STI"], [], []⟩ []).1 = 0
    ∧ (rule_based_score "Recent STI diagnosis" ⟨["sti"], [], []⟩ []).1 = 0.8 := by
  refine ⟨by decide, by decide, ?_, ?_⟩
  · simp only [rule_based_score]
    norm_num [show matchCount ["STI"] (pyLower "Recent STI diagnosis") = 0 from by decide,
      show matchCount ([] : List String) (pyLower "Recent STI diagnosis") = 0 from by decide]
  · simp only [rule_based_score]
    norm_num [show matchCount ["sti"] (pyLower "Recent STI diagnosis") = 1 from by decide,
      show matchCount ([] : List String) (pyLower "Recent STI diagnosis") = 0 from by decide]

/-- C10: the scoring pipeline reads only `full_text` from the
conversation record: two conversations with equal `full_text` yield
identical `hybrid_score` outputs, identical judge prompts, and
identical risk assessments and recommendations in
`analyze_conversation`, whatever their `messages`, `user_text`,
timestamps or `message_count`. -/
theorem pipeline_depends_only_on_full_text (configured : Bool)
    (complete : String → Except String JudgeDict)
    (retrieve : String → ℕ → Except String (List String))
    (recComplete : String → Except String RecDict)
    (c1 c2 : Conversation) (h : c1.full_text = c2.full_text) :
    (hybrid_score configured complete c1 = hybrid_score configured complete c2)
    ∧ (∀ risk_type, judgePrompt c1.full_text risk_type = judgePrompt c2.full_text risk_type)
    ∧ ((analyze_conversation configured complete retrieve recComplete c1).risk_assessment
        = (analyze_conversation configured complete retrieve recComplete c2).risk_assessment)
    ∧ ((analyze_conversation configured complete retrieve recComplete c1).recommendations
        = (analyze_conversation configured complete retrieve recComplete c2).recommendations) := by
  have hh : hybrid_score configured complete c1 = hybrid_score configured complete c2 := by
    simp only [hybrid_score, h]
  refine ⟨hh, fun risk_type => by rw [h], ?_, ?_⟩
  · simp only [analyze_conversation, hh]
  · simp only [analyze_conversation, hh, h]

/-- C10 (witness): two conversation records sharing `full_text` "hi" but
differing in messages, user text and message count score identically. -/
theorem pipeline_depends_only_on_full_text_witness :
    hybrid_score true (fun _ => Except.error "down")
        ⟨[⟨"2024-01-01 10:00", "User", "hi"⟩], "hi", "hi", 1⟩
      = hybrid_score true (fun _ => Except.error "down") ⟨[], "hi", "", 7⟩ :=
  (pipeline_depends_only_on_full_text true (fun _ => Except.error "down")
    (fun _ _ => Except.ok []) (fun _ => Except.ok ⟨none, none, none⟩)
    ⟨[⟨"2024-01-01 10:00", "User", "hi"⟩], "hi", "hi", 1⟩ ⟨[], "hi", "", 7⟩ rfl).1
